import Mathlib

/-!
Verification of the initialization and global-state lifecycle subsystem of
`hydra` (`src/hydra/experimental/initialize.py`).

The entry points (`initialize`, `initialize_config_module`,
`initialize_config_dir`) and their scoped context-manager counterparts are
translated directly from the source.  Collaborators that the source imports
from elsewhere in the repository (`detect_calling_file_or_module_from_stack_frame`,
`detect_task_name`, `create_config_search_path`,
`Hydra.create_main_hydra_file_or_module`, `Hydra.create_main_hydra2`,
`GlobalHydra`) are not among the provided source files and are modelled from
the specification, as noted on each definition.

State is passed explicitly: the process-global registry is a value of type
`Registry`, and every stateful operation has type
`... → Registry → Except HydraError Unit × Registry`, where the `Except`
component is the Python control-flow outcome (an exception leaves the registry
component at whatever state the operation reached, matching Python semantics
where raising does not roll state back).
-/

/-- Schema of a search-path entry: a filesystem directory or an importable
package resource. -/
inductive Schema
  | fileSystem
  | packageResource
deriving DecidableEq

/-- One provider-tagged entry of the configuration search path. -/
structure SearchPathEntry where
  provider : String
  path : String
  schema : Schema
deriving DecidableEq

/-- The state held by the global registry when it is initialized:
an ordered search path, the job name, and the (deprecated) strict flag. -/
structure RegistryState where
  searchPath : List SearchPathEntry
  jobName : String
  strict : Option Bool
deriving DecidableEq

/-- The process-global registry: `none` is the uninitialized/absent state. -/
abbrev Registry := Option RegistryState

/-- The exceptions this subsystem can raise.  `unsupportedCaller` models the
`HydraException` raised for a module caller with a relative directory (the
spec's `UnsupportedCallerError`); `detectionError` models a failure of
stack-frame detection (the spec's `DetectionError`); `userError` models an
arbitrary exception raised by the body of a scoped block. -/
inductive HydraError
  | unsupportedCaller
  | detectionError
  | userError (code : Nat)
deriving DecidableEq

/-- The caller context produced by stack-frame detection: an optional calling
file and an optional calling module. -/
structure CallerContext where
  calling_file : Option String
  calling_module : Option String
deriving DecidableEq

/-- The execution environment seen by stack-frame detection: for each stack
depth, either the caller context detected at that depth, or `none` when the
requested depth has no resolvable caller frame. -/
abbrev StackEnv := Nat → Option CallerContext

/-- Characters of `cs` after the last occurrence of `sep` (all of `cs` when
`sep` does not occur). -/
def afterLastSep (sep : Char) (cs : List Char) : List Char :=
  (cs.reverse.takeWhile (fun c => c != sep)).reverse

/-- Model of `os.path.basename` (POSIX): the part of the path after the last
slash. -/
def os_path_basename (s : String) : String :=
  ⟨afterLastSep '/' s.data⟩

/-- Model of `os.path.dirname` (POSIX): the part of the path before the last
slash (empty when there is no slash). -/
def os_path_dirname (s : String) : String :=
  ⟨((s.data.reverse.dropWhile (fun c => c != '/')).drop 1).reverse⟩

/-- Model of `os.path.isabs` (POSIX): a path is absolute when it starts with
a slash. -/
def os_path_isabs (s : String) : Bool :=
  match s.data with
  | c :: _ => c == '/'
  | [] => false

/-- Dropping the filename extension, as `os.path.splitext(...)[0]` does on a
basename: everything before the last dot, or the whole string when it has no
dot. -/
def dropExtension (s : String) : String :=
  if s.data.contains '.' then
    ⟨((s.data.reverse.dropWhile (fun c => c != '.')).drop 1).reverse⟩
  else s

/-- The last dotted component of a module name (`"pkg.sub.runner"` gives
`"runner"`). -/
def lastDotComponent (s : String) : String :=
  ⟨afterLastSep '.' s.data⟩

/-- Modelled from the spec: `detect_task_name(calling_file, calling_module)`
(imported from `hydra._internal.utils`, not among the provided sources)
derives a job name as the basename without extension of `calling_file` if
present, else the last dotted component of `calling_module`, else the fixed
default `"app"`. -/
def detect_task_name (calling_file calling_module : Option String) : String :=
  match calling_file with
  | some f => dropExtension (os_path_basename f)
  | none =>
    match calling_module with
    | some m => lastDotComponent m
    | none => "app"

/-- Modelled from the spec: `detect_calling_file_or_module_from_stack_frame`
(imported from `hydra._internal.utils`, not among the provided sources) walks
the call stack to the requested depth and returns the caller context, failing
with `DetectionError` when the depth has no resolvable frame.  The walk itself
is abstracted into the `StackEnv` environment. -/
def detect_calling_file_or_module_from_stack_frame (env : StackEnv) (n : Nat) :
    Except HydraError CallerContext :=
  match env n with
  | some ctx => .ok ctx
  | none => .error .detectionError

/-- Modelled from the spec: the framework's built-in baseline configuration
entry, appended after user-supplied entries so user configuration takes
priority. -/
def defaultSearchPathEntry : SearchPathEntry :=
  ⟨"hydra", "pkg://hydra.conf", .packageResource⟩

/-- Modelled from the spec: `create_config_search_path(search_path_dir)`
(imported from `hydra._internal.utils`, not among the provided sources) builds
a standalone search path holding a single filesystem entry rooted at the given
directory, followed by the built-in baseline entry. -/
def create_config_search_path (search_path_dir : String) : List SearchPathEntry :=
  [⟨"main", search_path_dir, .fileSystem⟩, defaultSearchPathEntry]

/-- Modelled from the spec: the search-path construction rules of the
SearchPathBuilder for a file-or-module caller.  An absolute specifier yields a
single filesystem entry; a relative specifier is resolved against the calling
file's parent directory, and is rejected with `UnsupportedCallerError` when
only a calling module is known; an absent specifier with a calling module
yields a package-resource entry addressed by the dotted module name; the
built-in baseline entry always comes after the user entries. -/
def build_file_or_module_search_path (calling_file calling_module : Option String)
    (config_path : Option String) : Except HydraError (List SearchPathEntry) :=
  match config_path with
  | none =>
    match calling_module with
    | some m => .ok [⟨"main", m, .packageResource⟩, defaultSearchPathEntry]
    | none => .ok [defaultSearchPathEntry]
  | some p =>
    if os_path_isabs p then
      .ok [⟨"main", p, .fileSystem⟩, defaultSearchPathEntry]
    else
      match calling_file with
      | some f =>
        .ok [⟨"main", os_path_dirname f ++ "/" ++ p, .fileSystem⟩, defaultSearchPathEntry]
      | none =>
        match calling_module with
        | some _ => .error .unsupportedCaller
        | none => .ok [defaultSearchPathEntry]

/-- Modelled from the spec: `Hydra.create_main_hydra_file_or_module` (from
`hydra._internal.hydra`, not among the provided sources) builds the search
path from the caller context and config path and installs the resulting state
into the global registry, replacing any previous state unconditionally.
Installation is all-or-nothing: when building the search path fails, the
registry is left untouched and the error propagates. -/
def create_main_hydra_file_or_module (calling_file calling_module config_path : Option String)
    (job_name : String) (strict : Option Bool) (r : Registry) :
    Except HydraError Unit × Registry :=
  match build_file_or_module_search_path calling_file calling_module config_path with
  | .error e => (.error e, r)
  | .ok sp => (.ok (), some ⟨sp, job_name, strict⟩)

/-- Modelled from the spec: `Hydra.create_main_hydra2` (from
`hydra._internal.hydra`, not among the provided sources) installs the given
task name and already-built search path into the global registry, replacing
any previous state unconditionally. -/
def create_main_hydra2 (task_name : String) (config_search_path : List SearchPathEntry)
    (strict : Option Bool) (r : Registry) : Except HydraError Unit × Registry :=
  (.ok (), some ⟨config_search_path, task_name, strict⟩)

/-- Modelled from the spec: `GlobalHydra.instance()` (from
`hydra.core.global_hydra`, not among the provided sources) returns the current
global registry state, including the absent case. -/
def GlobalHydra.get_instance (r : Registry) : Registry := r

/-- Modelled from the spec: `GlobalHydra.set_instance(gh)` (from
`hydra.core.global_hydra`, not among the provided sources) replaces the live
registry state with `gh` exactly, including restoring the absent case;
whatever the live state was is discarded. -/
def GlobalHydra.set_instance (gh : Registry) (live : Registry) : Registry := gh

/-- Modelled from the spec: `copy.deepcopy` applied to the registry — a deep,
fully independent copy of the current state (including the absent case).  In
this pure embedding a value copy is exact, and independence from later
mutation of the live registry is expressed by the snapshot/restore theorems
below. -/
def deepcopy (r : Registry) : Registry := r

/-- `initialize(config_path, job_name, strict, caller_stack_depth)` from
`src/hydra/experimental/initialize.py` (the name carries a prime because the
bare source name is unavailable here): detect the caller context at
`caller_stack_depth + 1`, derive the job name from it when `job_name` is
`None`, and install the file-or-module state. -/
def initialize' (env : StackEnv) (config_path : Option String)
    (job_name : Option String) (strict : Option Bool) (caller_stack_depth : Nat)
    (r : Registry) : Except HydraError Unit × Registry :=
  match detect_calling_file_or_module_from_stack_frame env (caller_stack_depth + 1) with
  | .error e => (.error e, r)
  | .ok ctx =>
    let jn :=
      match job_name with
      | none => detect_task_name ctx.calling_file ctx.calling_module
      | some j => j
    create_main_hydra_file_or_module ctx.calling_file ctx.calling_module config_path
      jn strict r

/-- `initialize_config_module(config_module, job_name)` from
`src/hydra/experimental/initialize.py`: no caller detection; installs state
built from `calling_file=None`, `config_path=None`, and the synthetic
qualified module name `config_module + "." + job_name`. -/
def initialize_config_module (config_module : String) (job_name : String)
    (r : Registry) : Except HydraError Unit × Registry :=
  create_main_hydra_file_or_module none (some (config_module ++ "." ++ job_name))
    none job_name none r

/-- `initialize_config_dir(config_dir, job_name, caller_stack_depth)` from
`src/hydra/experimental/initialize.py`: detect the caller context, derive the
job name when `job_name` is `None`, then either install a standalone search
path (absolute `config_dir`) or resolve relative to the calling file,
rejecting a module caller with a relative `config_dir`. -/
def initialize_config_dir (env : StackEnv) (config_dir : String)
    (job_name : Option String) (caller_stack_depth : Nat) (r : Registry) :
    Except HydraError Unit × Registry :=
  match detect_calling_file_or_module_from_stack_frame env (caller_stack_depth + 1) with
  | .error e => (.error e, r)
  | .ok ctx =>
    let jn :=
      match job_name with
      | none => detect_task_name ctx.calling_file ctx.calling_module
      | some j => j
    if os_path_isabs config_dir then
      create_main_hydra2 jn (create_config_search_path config_dir) none r
    else
      match ctx.calling_module with
      | some _ => (.error .unsupportedCaller, r)
      | none =>
        create_main_hydra_file_or_module ctx.calling_file none (some config_dir)
          jn none r

/-- The default of the `job_name` parameter in the signature of
`initialize_config_dir` (`job_name: Optional[str] = None`). -/
def initialize_config_dir_default_job_name : Option String := none

/-- The default of the `job_name` parameter in the signature of
`initialize_config_dir_ctx` (`job_name: Optional[str] = "app"`). -/
def initialize_config_dir_ctx_default_job_name : Option String := some "app"

/-- A scope body: an arbitrary computation over the registry that may mutate
it and may raise. -/
abbrev ScopeBody := Registry → Except HydraError Unit × Registry

/-- `initialize_ctx` from `src/hydra/experimental/initialize.py`: snapshot the
global registry (`copy.deepcopy(GlobalHydra.instance())`), run `initialize`
at depth `caller_stack_depth + 2`, yield to the body, and in the `finally`
block restore the snapshot (`GlobalHydra.set_instance(gh)`) on every exit
path — normal completion, an exception from the inner initialization, or an
exception from the body. -/
def initialize_ctx (env : StackEnv) (config_path : Option String)
    (job_name : Option String) (caller_stack_depth : Nat) (body : ScopeBody)
    (r : Registry) : Except HydraError Unit × Registry :=
  let gh := deepcopy (GlobalHydra.get_instance r)
  let tryResult :=
    match initialize' env config_path job_name none (caller_stack_depth + 2) r with
    | (Except.error e, r1) => (Except.error e, r1)
    | (Except.ok _, r1) => body r1
  (tryResult.1, GlobalHydra.set_instance gh tryResult.2)

/-- `initialize_config_module_ctx` from `src/hydra/experimental/initialize.py`.
The source's `assert job_name is not None` is vacuous here because `job_name`
has the non-optional type `str`. -/
def initialize_config_module_ctx (config_module : String) (job_name : String)
    (body : ScopeBody) (r : Registry) : Except HydraError Unit × Registry :=
  let gh := deepcopy (GlobalHydra.get_instance r)
  let tryResult :=
    match initialize_config_module config_module job_name r with
    | (Except.error e, r1) => (Except.error e, r1)
    | (Except.ok _, r1) => body r1
  (tryResult.1, GlobalHydra.set_instance gh tryResult.2)

/-- `initialize_config_dir_ctx` from `src/hydra/experimental/initialize.py`:
snapshot, run `initialize_config_dir` at depth `caller_stack_depth + 2`, yield
to the body, and restore the snapshot in the `finally` block. -/
def initialize_config_dir_ctx (env : StackEnv) (config_dir : String)
    (job_name : Option String) (caller_stack_depth : Nat) (body : ScopeBody)
    (r : Registry) : Except HydraError Unit × Registry :=
  let gh := deepcopy (GlobalHydra.get_instance r)
  let tryResult :=
    match initialize_config_dir env config_dir job_name (caller_stack_depth + 2) r with
    | (Except.error e, r1) => (Except.error e, r1)
    | (Except.ok _, r1) => body r1
  (tryResult.1, GlobalHydra.set_instance gh tryResult.2)

/-- A registry mutation, per the GlobalRegistry contract: `install` replaces
the state unconditionally, `clear` sets it to absent. -/
inductive Mutation
  | install (st : RegistryState)
  | clear
deriving DecidableEq

/-- Apply one mutation to the live registry. -/
def applyMutation (m : Mutation) (r : Registry) : Registry :=
  match m with
  | .install st => some st
  | .clear => none

/-- Apply a sequence of mutations to the live registry, in order. -/
def applyMutations (ms : List Mutation) (r : Registry) : Registry :=
  ms.foldl (fun r m => applyMutation m r) r

/-- One call to one of the three unscoped initialization entry points,
with its arguments. -/
inductive InitCall
  | init (config_path job_name : Option String) (strict : Option Bool)
      (caller_stack_depth : Nat)
  | configModule (config_module job_name : String)
  | configDir (config_dir : String) (job_name : Option String)
      (caller_stack_depth : Nat)

/-- Run one initialization call against the registry in the given
environment. -/
def runInitCall (env : StackEnv) (c : InitCall) (r : Registry) :
    Except HydraError Unit × Registry :=
  match c with
  | .init cp jn st d => initialize' env cp jn st d r
  | .configModule cm jn => initialize_config_module cm jn r
  | .configDir cd jn d => initialize_config_dir env cd jn d r

/-- C1: For every scoped initialization (`initialize_ctx`,
`initialize_config_module_ctx`, `initialize_config_dir_ctx`) and every starting
registry state, when the scope exits — by normal completion, by an exception
raised in the scope body (the body is universally quantified, so it may raise
or mutate arbitrarily), or by an exception raised by the inner initialization
call itself (the environment is universally quantified, so detection may fail
and the build may reject the caller) — the global registry equals the state
snapshotted on entry; in particular an uninitialized registry is uninitialized
again after exit. -/
theorem scoped_initialization_restores_registry :
    (∀ (env : StackEnv) (cp jn : Option String) (d : Nat) (body : ScopeBody) (r : Registry),
      (initialize_ctx env cp jn d body r).2 = r)
    ∧ (∀ (cm jn : String) (body : ScopeBody) (r : Registry),
      (initialize_config_module_ctx cm jn body r).2 = r)
    ∧ (∀ (env : StackEnv) (dir : String) (jn : Option String) (d : Nat)
        (body : ScopeBody) (r : Registry),
      (initialize_config_dir_ctx env dir jn d body r).2 = r)
    ∧ (∀ (env : StackEnv) (cp jn : Option String) (d : Nat) (body : ScopeBody),
      (initialize_ctx env cp jn d body none).2 = none) :=
  ⟨fun _ _ _ _ _ _ => rfl, fun _ _ _ _ => rfl, fun _ _ _ _ _ _ => rfl,
    fun _ _ _ _ _ => rfl⟩

/-- C2: For two scoped initializations with S2 strictly nested inside S1's
body, restoration is LIFO: immediately after S2 exits the registry equals the
state S2 snapshotted on its entry (the state installed by S1, possibly further
mutated), and after S1 exits the registry equals the pre-S1 state — independent
of the install/clear mutations `ms1` performed before S2, the mutations `ms2`
performed after it, and whatever S2's inner body does. -/
theorem nested_scopes_restore_lifo :
    ∀ (env : StackEnv) (cp1 jn1 cp2 jn2 : Option String) (d1 d2 : Nat)
      (innerBody : ScopeBody) (ms1 ms2 : List Mutation) (r0 : Registry),
      (∀ r1, (initialize_ctx env cp2 jn2 d2 innerBody r1).2 = r1)
      ∧ (initialize_ctx env cp1 jn1 d1
          (fun r =>
            let inner := initialize_ctx env cp2 jn2 d2 innerBody (applyMutations ms1 r)
            (inner.1, applyMutations ms2 inner.2)) r0).2 = r0 :=
  fun _ _ _ _ _ _ _ _ _ _ _ => ⟨fun _ => rfl, rfl⟩

/-- C3: For every relative (non-absolute) `config_dir`, if the detected
caller context is a module (`calling_module` is not `None`),
`initialize_config_dir` raises the unsupported-caller `HydraException` and the
global registry is left exactly as it was before the call. -/
theorem initialize_config_dir_rejects_relative_module_caller
    (env : StackEnv) (dir : String) (jn : Option String) (d : Nat) (r : Registry)
    (ctx : CallerContext) (m : String)
    (henv : env (d + 1) = some ctx) (hmod : ctx.calling_module = some m)
    (habs : os_path_isabs dir = false) :
    initialize_config_dir env dir jn d r = (.error .unsupportedCaller, r) := by
  cases jn <;>
    simp [initialize_config_dir, detect_calling_file_or_module_from_stack_frame,
      henv, hmod, habs]

/-- Witness for C3 at a concrete module caller and a relative directory. -/
theorem initialize_config_dir_rejects_relative_module_caller_witness :
    initialize_config_dir (fun _ => some ⟨none, some "pkg.mod"⟩) "relative/dir" none 1 none =
      (.error .unsupportedCaller, none) :=
  initialize_config_dir_rejects_relative_module_caller
    (fun _ => some ⟨none, some "pkg.mod"⟩) "relative/dir" none 1 none
    ⟨none, some "pkg.mod"⟩ "pkg.mod" rfl rfl rfl

/-- The installed state of `create_main_hydra_file_or_module` does not depend
on the registry state the call starts from: a successful call from any state
yields the same final state. -/
theorem create_main_state_indep (cf cm cp : Option String) (jn : String)
    (st : Option Bool) (r r' s : Registry)
    (h : create_main_hydra_file_or_module cf cm cp jn st r = (.ok (), s)) :
    create_main_hydra_file_or_module cf cm cp jn st r' = (.ok (), s) := by
  cases hb : build_file_or_module_search_path cf cm cp with
  | error e => simp [create_main_hydra_file_or_module, hb] at h
  | ok sp =>
    simp only [create_main_hydra_file_or_module, hb] at h ⊢
    exact h

/-- The installed state of any successful initialization call does not depend
on the registry state the call starts from. -/
theorem runInitCall_ok_state_indep (env : StackEnv) (c : InitCall) (r r' s : Registry)
    (h : runInitCall env c r = (.ok (), s)) : runInitCall env c r' = (.ok (), s) := by
  cases c with
  | init cp jn st d =>
    simp only [runInitCall, initialize'] at h ⊢
    cases hd : detect_calling_file_or_module_from_stack_frame env (d + 1) with
    | error e => simp [hd] at h
    | ok ctx =>
      simp only [hd] at h ⊢
      exact create_main_state_indep _ _ _ _ _ _ _ _ h
  | configModule cm jn =>
    simp only [runInitCall, initialize_config_module] at h ⊢
    exact create_main_state_indep _ _ _ _ _ _ _ _ h
  | configDir cd jn d =>
    simp only [runInitCall, initialize_config_dir] at h ⊢
    cases hd : detect_calling_file_or_module_from_stack_frame env (d + 1) with
    | error e => simp [hd] at h
    | ok ctx =>
      simp only [hd] at h ⊢
      by_cases habs : os_path_isabs cd = true
      · rw [if_pos habs] at h ⊢
        simp only [create_main_hydra2] at h ⊢
        exact h
      · rw [if_neg habs] at h ⊢
        cases hm : ctx.calling_module with
        | some m => rw [hm] at h; simp at h
        | none => rw [hm] at h; exact create_main_state_indep _ _ _ _ _ _ _ _ h

/-- C4: For every pair of successful initialization calls executed in
sequence, the registry afterwards holds exactly the state produced by the
second call alone (running the second call directly from the original state
yields the same final state): the second call replaces the first call's state
unconditionally and nothing from the first call is merged in or retained. -/
theorem second_call_replaces_first (env1 env2 : StackEnv) (c1 c2 : InitCall)
    (r0 r1 r2 : Registry)
    (h1 : runInitCall env1 c1 r0 = (.ok (), r1))
    (h2 : runInitCall env2 c2 r1 = (.ok (), r2)) :
    runInitCall env2 c2 r0 = (.ok (), r2) :=
  runInitCall_ok_state_indep env2 c2 r1 r0 r2 h2

/-- Witness for C4: a `initialize_config_module` call followed by an
`initialize_config_dir` call; the second call alone produces the final
state. -/
theorem second_call_replaces_first_witness :
    runInitCall (fun _ => some ⟨some "/a/b/my_app.py", none⟩)
      (.configDir "/abs/dir" (some "x") 1) none =
      (.ok (), some ⟨[⟨"main", "/abs/dir", .fileSystem⟩, defaultSearchPathEntry], "x", none⟩) :=
  second_call_replaces_first
    (fun _ => some ⟨some "/a/b/my_app.py", none⟩)
    (fun _ => some ⟨some "/a/b/my_app.py", none⟩)
    (.configModule "foo.bar" "app") (.configDir "/abs/dir" (some "x") 1)
    none
    (some ⟨[⟨"main", "foo.bar.app", .packageResource⟩, defaultSearchPathEntry], "app", none⟩)
    (some ⟨[⟨"main", "/abs/dir", .fileSystem⟩, defaultSearchPathEntry], "x", none⟩)
    (by rfl) (by rfl)

/-- C5: For every absolute `config_dir` and explicitly supplied `job_name`,
`initialize_config_dir` succeeds and installs the same registry state
regardless of the detected caller context: two runs differing only in caller
context (and in starting state) produce the same installed state. -/
theorem initialize_config_dir_absolute_caller_independent
    (dir : String) (j : String) (d : Nat) (env1 env2 : StackEnv)
    (ctx1 ctx2 : CallerContext) (r1 r2 : Registry)
    (habs : os_path_isabs dir = true)
    (h1 : env1 (d + 1) = some ctx1) (h2 : env2 (d + 1) = some ctx2) :
    initialize_config_dir env1 dir (some j) d r1 =
      (.ok (), some ⟨create_config_search_path dir, j, none⟩)
    ∧ initialize_config_dir env2 dir (some j) d r2 =
      (.ok (), some ⟨create_config_search_path dir, j, none⟩) := by
  constructor <;>
    simp [initialize_config_dir, detect_calling_file_or_module_from_stack_frame,
      h1, h2, habs, create_main_hydra2]

/-- Witness for C5: a script caller and a module caller install the same
state for an absolute directory and an explicit job name. -/
theorem initialize_config_dir_absolute_caller_independent_witness :
    initialize_config_dir (fun _ => some ⟨some "/s.py", none⟩) "/abs/dir" (some "x") 1 none =
      (.ok (), some ⟨create_config_search_path "/abs/dir", "x", none⟩)
    ∧ initialize_config_dir (fun _ => some ⟨none, some "pkg.mod"⟩) "/abs/dir" (some "x") 1
        (some ⟨[], "old", none⟩) =
      (.ok (), some ⟨create_config_search_path "/abs/dir", "x", none⟩) :=
  initialize_config_dir_absolute_caller_independent "/abs/dir" "x" 1
    (fun _ => some ⟨some "/s.py", none⟩) (fun _ => some ⟨none, some "pkg.mod"⟩)
    ⟨some "/s.py", none⟩ ⟨none, some "pkg.mod"⟩ none (some ⟨[], "old", none⟩)
    rfl rfl rfl

/-- C6: The snapshot taken on entry to a scoped initialization
(`deepcopy (GlobalHydra.get_instance r0)`) equals the state at snapshot time
(including the absent case), and for every sequence of install/clear mutations
performed on the live registry afterwards, restoring the snapshot with
`GlobalHydra.set_instance` returns the registry exactly to the snapshotted
state. -/
theorem registry_snapshot_restore_after_mutations :
    ∀ (r0 : Registry) (ms : List Mutation),
      deepcopy (GlobalHydra.get_instance r0) = r0
      ∧ GlobalHydra.set_instance (deepcopy (GlobalHydra.get_instance r0))
          (applyMutations ms r0) = r0 :=
  fun _ _ => ⟨rfl, rfl⟩

/-- C7: For every `config_module` and `job_name`, `initialize_config_module`
performs no caller-stack detection (its result is independent of the stack
environment) and installs state built from `calling_file = None`,
`config_path = None`, and `calling_module` equal to the synthetic qualified
name `config_module ++ "." ++ job_name`. -/
theorem initialize_config_module_no_detection :
    ∀ (cm jn : String) (r : Registry),
      initialize_config_module cm jn r =
        create_main_hydra_file_or_module none (some (cm ++ "." ++ jn)) none jn none r
      ∧ ∀ (env env' : StackEnv),
        runInitCall env (.configModule cm jn) r = runInitCall env' (.configModule cm jn) r :=
  fun _ _ _ => ⟨rfl, fun _ _ => rfl⟩

/-- C8: For every call to `initialize` or `initialize_config_dir` with
`job_name = None`, the installed job name is `detect_task_name` of the detected
caller context: the basename without extension of the calling file if present,
else the last dotted component of the calling module, else `"app"` — with
`"/a/b/my_app.py"` yielding `"my_app"` and `"pkg.sub.runner"` yielding
`"runner"`. -/
theorem default_job_name_derivation
    (env : StackEnv) (d : Nat) (ctx : CallerContext)
    (henv : env (d + 1) = some ctx) :
    (∀ (cp : Option String) (st : Option Bool) (r : Registry),
      initialize' env cp none st d r =
        create_main_hydra_file_or_module ctx.calling_file ctx.calling_module cp
          (detect_task_name ctx.calling_file ctx.calling_module) st r)
    ∧ (∀ (dir : String) (r : Registry), os_path_isabs dir = true →
      initialize_config_dir env dir none d r =
        (.ok (), some ⟨create_config_search_path dir,
          detect_task_name ctx.calling_file ctx.calling_module, none⟩))
    ∧ (∀ (dir : String) (r : Registry), os_path_isabs dir = false →
        ctx.calling_module = none →
      initialize_config_dir env dir none d r =
        create_main_hydra_file_or_module ctx.calling_file none (some dir)
          (detect_task_name ctx.calling_file ctx.calling_module) none r)
    ∧ detect_task_name (some "/a/b/my_app.py") none = "my_app"
    ∧ detect_task_name none (some "pkg.sub.runner") = "runner"
    ∧ detect_task_name none none = "app" := by
  refine ⟨?_, ?_, ?_, by decide, by decide, rfl⟩
  · intro cp st r
    simp [initialize', detect_calling_file_or_module_from_stack_frame, henv]
  · intro dir r habs
    simp [initialize_config_dir, detect_calling_file_or_module_from_stack_frame,
      henv, habs, create_main_hydra2]
  · intro dir r habs hmod
    simp [initialize_config_dir, detect_calling_file_or_module_from_stack_frame,
      henv, habs, hmod]

/-- Witness for C8 at a concrete caller file `"/a/b/my_app.py"`. -/
theorem default_job_name_derivation_witness :
    initialize' (fun _ => some ⟨some "/a/b/my_app.py", none⟩) none none none 1 none =
      create_main_hydra_file_or_module (some "/a/b/my_app.py") none none "my_app"
        none none := by
  have h := default_job_name_derivation (fun _ => some ⟨some "/a/b/my_app.py", none⟩) 1
    ⟨some "/a/b/my_app.py", none⟩ rfl
  rw [h.1 none none none, h.2.2.2.1]

/-- C9 counterexample: the defaults differ (`some "app"` versus `none`), yet
for a notebook caller (no file, no module) the derived job name is `"app"`, so
the unscoped call with its defaulted `job_name` installs exactly the state the
scoped variant's defaulted `job_name` installs — the two variants agree
although `job_name` was not passed explicitly, refuting the claim's final
clause that they agree only when it is. -/
theorem defaulted_job_names_can_agree :
    initialize_config_dir_ctx_default_job_name ≠ initialize_config_dir_default_job_name
    ∧ initialize_config_dir (fun _ => some ⟨none, none⟩) "/abs/dir"
        initialize_config_dir_ctx_default_job_name 1 none =
      initialize_config_dir (fun _ => some ⟨none, none⟩) "/abs/dir"
        initialize_config_dir_default_job_name 1 none
    ∧ initialize_config_dir (fun _ => some ⟨none, none⟩) "/abs/dir"
        initialize_config_dir_default_job_name 1 none =
      (.ok (), some ⟨create_config_search_path "/abs/dir", "app", none⟩) :=
  ⟨by decide, rfl, rfl⟩

/-- C9 (amended): `initialize_config_dir_ctx` defaults `job_name` to
`"app"` whereas `initialize_config_dir` defaults it to `None`; with default
arguments the scoped variant runs its body with the literal job name `"app"`
installed, for every caller context, and never derives it, while the unscoped
variant derives it from the caller; with an explicit `job_name` that name is
installed, and with default arguments the two variants' installed states agree
exactly when the derived name is `"app"` (not only when `job_name` is passed
explicitly). -/
theorem config_dir_ctx_default_literal_app
    (env : StackEnv) (d : Nat) (ctx : CallerContext) (dir : String) (r : Registry)
    (henvctx : env (d + 3) = some ctx) (henv : env (d + 1) = some ctx)
    (habs : os_path_isabs dir = true) :
    initialize_config_dir_ctx_default_job_name = some "app"
    ∧ initialize_config_dir_default_job_name = none
    ∧ (∀ body : ScopeBody,
        initialize_config_dir_ctx env dir initialize_config_dir_ctx_default_job_name d
          body r =
          ((body (some ⟨create_config_search_path dir, "app", none⟩)).1, r))
    ∧ initialize_config_dir env dir initialize_config_dir_default_job_name d r =
        (.ok (), some ⟨create_config_search_path dir,
          detect_task_name ctx.calling_file ctx.calling_module, none⟩)
    ∧ (∀ j : String,
        initialize_config_dir env dir (some j) d r =
          (.ok (), some ⟨create_config_search_path dir, j, none⟩))
    ∧ (initialize_config_dir env dir initialize_config_dir_ctx_default_job_name d r =
        initialize_config_dir env dir initialize_config_dir_default_job_name d r
        ↔ detect_task_name ctx.calling_file ctx.calling_module = "app") := by
  have hd3 : d + 2 + 1 = d + 3 := rfl
  refine ⟨rfl, rfl, ?_, ?_, ?_, ?_⟩
  · intro body
    simp [initialize_config_dir_ctx, initialize_config_dir,
      detect_calling_file_or_module_from_stack_frame, hd3, henvctx, habs,
      create_main_hydra2, initialize_config_dir_ctx_default_job_name,
      deepcopy, GlobalHydra.get_instance, GlobalHydra.set_instance]
  · simp [initialize_config_dir, detect_calling_file_or_module_from_stack_frame,
      henv, habs, create_main_hydra2, initialize_config_dir_default_job_name]
  · intro j
    simp [initialize_config_dir, detect_calling_file_or_module_from_stack_frame,
      henv, habs, create_main_hydra2]
  · simp [initialize_config_dir, detect_calling_file_or_module_from_stack_frame,
      henv, habs, create_main_hydra2, initialize_config_dir_default_job_name,
      initialize_config_dir_ctx_default_job_name, RegistryState.mk.injEq, eq_comm]

/-- Witness for the amended C9: a scoped run with the default job name from
a script caller; the body observes the installed state and the scope restores
the absent registry. -/
theorem config_dir_ctx_default_literal_app_witness :
    initialize_config_dir_ctx (fun _ => some ⟨some "/s.py", none⟩) "/abs/dir"
        initialize_config_dir_ctx_default_job_name 1 (fun st => (.ok (), st)) none =
      (.ok (), none) := by
  have h := config_dir_ctx_default_literal_app (fun _ => some ⟨some "/s.py", none⟩) 1
    ⟨some "/s.py", none⟩ "/abs/dir" none rfl rfl rfl
  exact h.2.2.1 (fun st => (.ok (), st))

/-- C10: `initialize_config_dir` invokes caller-stack detection
unconditionally, before examining `config_dir`: a detection failure aborts the
call with an error even when `config_dir` is absolute and `job_name` is
explicitly supplied, and the registry is left unmutated. -/
theorem config_dir_detection_unconditional
    (env : StackEnv) (dir : String) (jn : Option String) (d : Nat) (r : Registry)
    (h : env (d + 1) = none) :
    initialize_config_dir env dir jn d r = (.error .detectionError, r) := by
  simp [initialize_config_dir, detect_calling_file_or_module_from_stack_frame, h]

/-- Witness for C10: detection fails while the directory is absolute and the
job name explicit; the call errors and the registry stays absent. -/
theorem config_dir_detection_unconditional_witness :
    os_path_isabs "/abs/dir" = true
    ∧ initialize_config_dir (fun _ => none) "/abs/dir" (some "x") 1 none =
      (.error .detectionError, none) :=
  ⟨rfl, config_dir_detection_unconditional (fun _ => none) "/abs/dir" (some "x") 1 none rfl⟩
